import Mathlib

/-
Shallow embedding of src/src/class/float_IEEE754.py (class float_IEEE754).

Conventions of the embedding:
* a Python bitarray is a big-endian `List Bool` (index 0 = most significant bit);
* Python ints appearing in the code are nonnegative here (`Nat`) except where the
  source can see negative values, which are modelled with `Int`;
* Python exceptions are modelled with `Except PyError`;
* a constructed `float_IEEE754` object is modelled by the pair of its normalized
  width and its packed bit pattern (`FloatValue`); every derived attribute the
  class computes in `__init__` is a function of that pair, written below with
  the attribute's name.
-/

namespace Float754

/-- Python exception values raised by the translated code paths. -/
inductive PyError where
  | valueError (msg : String)
  | overflowError (msg : String)
  | attributeError (msg : String)
  | nameError (msg : String)
  | typeError (msg : String)
  | keyError (msg : String)
  | structError (msg : String)
  | indexError (msg : String)
  deriving DecidableEq

/-- Fuel-driven helper for `bitLength`; the fuel argument only bounds the
recursion depth and is always called with fuel at least the value. -/
def bitLengthAux : Nat → Nat → Nat
  | 0, _ => 0
  | Nat.succ fuel, n => if n = 0 then 0 else bitLengthAux fuel (n / 2) + 1

/-- Python `int.bit_length()` for a nonnegative integer. -/
def bitLength (n : Nat) : Nat := bitLengthAux n n

/-- Length of the Python binary rendering of a nonnegative int, that is the
length of the string produced by the f-string with the 0b format: one digit for
zero, `bitLength n` digits otherwise. -/
def binDigits (n : Nat) : Nat := if n = 0 then 1 else bitLength n

/-- `bitarray.util.ba2int` on a big-endian bit list. -/
def ba2int (l : List Bool) : Nat :=
  l.foldl (fun a b => 2 * a + (if b then 1 else 0)) 0

/-- The `e` entry of the class table `__desc` (number of exponent bits);
`none` models the `KeyError` a lookup with any other width would raise. -/
def desc_e_opt (nbits : Nat) : Option Nat :=
  if nbits = 16 then some 5 else if nbits = 32 then some 8
  else if nbits = 64 then some 11 else none

/-- The `e` entry of `__desc` for the three supported widths.  Inside a
constructed instance the width has already been normalized (line 99), so the
table is total there; 64 is the final case. -/
def desc_e (nbits : Nat) : Nat :=
  if nbits = 16 then 5 else if nbits = 32 then 8 else 11

/-- Line 99 of `__init__`: `self.nbits = nbits if nbits in self.__desc else 64`. -/
def init_nbits (nbits : Nat) : Nat :=
  if nbits = 16 ∨ nbits = 32 ∨ nbits = 64 then nbits else 64

/-- Width snapping performed by `fromString` (lines 54 to 59): below 32 the
width becomes 16, below 63 it becomes 32, otherwise 64. -/
def snapWidth (nbits : Nat) : Nat :=
  if nbits < 32 then 16 else if nbits < 63 then 32 else 64

/-- The class constant `SIGN_PLUS` (the empty string). -/
def SIGN_PLUS : String := ""

/-- The class constant `SIGN_MINUS`. -/
def SIGN_MINUS : String := "-"

/-- A constructed `float_IEEE754` instance: its normalized width together with
the packed big-endian bit pattern `self.__bitarray` (length `nbits`).  All the
attributes `__init__` derives from these two are defined as functions below. -/
structure FloatValue where
  nbits : Nat
  bits : List Bool
  deriving DecidableEq

namespace FloatValue

/-- The `e` field of `self.__fmt` (line 113). -/
def fmt_e (x : FloatValue) : Nat := desc_e x.nbits

/-- Line 122: `self.rawSign = self.__bitarray[0]`. -/
def rawSign (x : FloatValue) : Bool := x.bits.getD 0 false

/-- Line 123: the exponent bit group `self.__bitarray[1 : e+1]`. -/
def rawExp (x : FloatValue) : List Bool := (x.bits.drop 1).take x.fmt_e

/-- Line 124: the mantissa bit group `self.__bitarray[e+1 :]`. -/
def rawMantissa (x : FloatValue) : List Bool := x.bits.drop (x.fmt_e + 1)

/-- Line 129: `self.expBias = 2**(e-1) - 1`. -/
def expBias (x : FloatValue) : Nat := 2 ^ (x.fmt_e - 1) - 1

/-- Line 132: the symbolic sign, `SIGN_MINUS` when the sign bit is set. -/
def sign (x : FloatValue) : String := if x.rawSign then SIGN_MINUS else SIGN_PLUS

/-- Line 134: `self.normal = self.rawExp.any() or not self.rawMantissa.any()`. -/
def normal (x : FloatValue) : Bool := x.rawExp.any id || !(x.rawMantissa.any id)

/-- Line 138: subnormal means all-zero exponent with some mantissa bit set. -/
def subnormal (x : FloatValue) : Bool := !(x.rawExp.any id) && x.rawMantissa.any id

/-- Line 142: zero means all-zero mantissa and all-zero exponent. -/
def zero (x : FloatValue) : Bool := !(x.rawMantissa.any id) && !(x.rawExp.any id)

/-- Line 143: `self.positiveZero = self.zero and self.sign == SP`. -/
def positiveZero (x : FloatValue) : Bool := x.zero && (x.sign == SIGN_PLUS)

/-- Line 144: `self.negativeZero = self.zero and self.sign == SM`. -/
def negativeZero (x : FloatValue) : Bool := x.zero && (x.sign == SIGN_MINUS)

/-- Line 146: infinity means all-one exponent with all-zero mantissa. -/
def infinity (x : FloatValue) : Bool := x.rawExp.all id && !(x.rawMantissa.any id)

/-- Line 150: NaN means all-one exponent with some mantissa bit set. -/
def NaN (x : FloatValue) : Bool := x.rawExp.all id && x.rawMantissa.any id

/-- Line 151: a NaN whose leading mantissa bit is 0 is signaling. -/
def signalingNaN (x : FloatValue) : Bool := x.NaN && (x.rawMantissa.getD 0 false == false)

/-- Line 152: a NaN whose leading mantissa bit is 1 is quiet. -/
def quietNaN (x : FloatValue) : Bool := x.NaN && (x.rawMantissa.getD 0 false == true)

/-- Line 153: `self.finite = self.zero or (not self.infinity and not self.NaN)`. -/
def finite (x : FloatValue) : Bool := x.zero || (!x.infinity && !x.NaN)

/-- Line 163: `self.intRawExp = ba2int(self.rawExp)`. -/
def intRawExp (x : FloatValue) : Nat := ba2int x.rawExp

/-- Lines 166 to 168: `self.exp = intRawExp - expBias + 1`, overwritten with 0
for infinity, NaN and zero. -/
def exp (x : FloatValue) : Int :=
  if x.infinity || x.NaN || x.zero then 0
  else (x.intRawExp : Int) - (x.expBias : Int) + 1

/-- The exact real value of the bit pattern, as a rational.  It models the
inherited Python float value of the instance (the constructor argument), which
is exact for every finite pattern; `totalOrder` consults the numeric value only
when both operands are finite, where Python float comparison agrees with
comparison of these exact rationals.  For infinity and NaN the field is never
consulted by any translated code path and is set to 0. -/
def exactValue (x : FloatValue) : ℚ :=
  if x.infinity || x.NaN then 0
  else
    let s : ℚ := if x.rawSign then -1 else 1
    if !(x.rawExp.any id) then
      s * (ba2int x.rawMantissa : ℚ) *
        (2 : ℚ) ^ ((1 : Int) - (x.expBias : Int) - (x.rawMantissa.length : Int))
    else
      s * ((2 : ℚ) ^ (x.rawMantissa.length : Nat) + (ba2int x.rawMantissa : ℚ)) *
        (2 : ℚ) ^ ((x.intRawExp : Int) - (x.expBias : Int) - (x.rawMantissa.length : Int))

/-- Lines 200 to 203: `self.bitstring`, the sign bit, the exponent group and
the mantissa group as 0/1 strings joined with underscores. -/
def bitstring (x : FloatValue) : String :=
  (if x.rawSign then "1" else "0") ++ "_"
    ++ String.join (x.rawExp.map (fun b => if b then "1" else "0")) ++ "_"
    ++ String.join (x.rawMantissa.map (fun b => if b then "1" else "0"))

end FloatValue

/-- Number of the five category flags of the claim that are set on an instance. -/
def categoryCount (x : FloatValue) : Nat :=
  (if x.zero then 1 else 0) + (if x.subnormal then 1 else 0) +
  (if x.normal then 1 else 0) + (if x.infinity then 1 else 0) +
  (if x.NaN then 1 else 0)

/-- The 64-bit positive zero instance: `struct.pack` of 0.0 in format `!d`
gives eight zero bytes, so `float_IEEE754(0.0, 64)` holds 64 zero bits. -/
def posZero64 : FloatValue := ⟨64, List.replicate 64 false⟩

/-- The 64-bit negative zero instance: sign bit set, all other bits clear. -/
def negZero64 : FloatValue := ⟨64, true :: List.replicate 63 false⟩

/-- The 64-bit positive infinity instance: all-one exponent, zero mantissa. -/
def posInf64 : FloatValue := ⟨64, false :: (List.replicate 11 true ++ List.replicate 52 false)⟩

/-- The 64-bit negative infinity instance. -/
def negInf64 : FloatValue := ⟨64, true :: (List.replicate 11 true ++ List.replicate 52 false)⟩

/-- Optional value of a Python character as a digit (0 to 9, a to f, A to F). -/
def digitVal (c : Char) : Option Nat :=
  if '0' ≤ c ∧ c ≤ '9' then some (c.toNat - '0'.toNat)
  else if 'a' ≤ c ∧ c ≤ 'f' then some (c.toNat - 'a'.toNat + 10)
  else if 'A' ≤ c ∧ c ≤ 'F' then some (c.toNat - 'A'.toNat + 10)
  else none

/-- Unsigned numeral parsing in a base: `none` on an empty string or on any
character that is not a digit below the base. -/
def parseDigits (l : List Char) (base : Nat) : Option Nat :=
  l.foldl
    (fun acc c =>
      match acc, digitVal c with
      | some a, some d => if d < base then some (base * a + d) else none
      | _, _ => none)
    (if l = [] then none else some 0)

/-- Python `int(value, base)` on the plain numerals this program handles: an
optional leading minus sign followed by digits of the base; `none` models the
`ValueError` raised on anything else. -/
def pyInt (s : String) (base : Nat) : Option Int :=
  match s.data with
  | '-' :: rest => (parseDigits rest base).map (fun n => -(n : Int))
  | l => (parseDigits l base).map (fun n => (n : Int))

/-- The big-endian bit pattern of `x.to_bytes(numBytes, "big")`: bit `i` of the
output is bit `8*numBytes - 1 - i` of `x` (only called with `x` below
`2 ^ (8 * numBytes)`, where `to_bytes` cannot overflow). -/
def natToBits (x : Nat) (numBytes : Nat) : List Bool :=
  (List.range (8 * numBytes)).map (fun i => x.testBit (8 * numBytes - 1 - i))

/-- The while loop of lines 61 to 62: round a bit count up to a byte multiple. -/
def roundUp8 (n : Nat) : Nat := if n % 8 = 0 then n else n + (8 - n % 8)

/-- The binary digit characters of a nonnegative int, most significant first,
as produced by the Python 0b format. -/
def pyBin (n : Nat) : String := ⟨Nat.toDigits 2 n⟩

/-- Python `str.zfill`: left-pad with zero characters up to the width. -/
def zfill (s : String) (w : Nat) : String :=
  ⟨List.replicate (w - s.length) '0' ++ s.data⟩

/-- `fromString` (lines 40 to 73).  Its `byteOrder` parameter is overwritten
with the string for big-endian on entry (line 43), so `botb` is always the
big byte order and `bop` is always the big-endian struct prefix; the parameter
is never consulted.  The steps, in source order:
* `forcePositive` with base 2 assigns into the string parameter, which raises
  `TypeError` because Python strings are immutable (line 50); with another base
  it reads `value[0]` (IndexError on an empty string) and strips a minus sign;
* `int(value, base)` raises `ValueError` on a malformed numeral (line 53);
* the width is snapped (lines 54 to 59);
* `x.to_bytes(xbytes, botb)` raises `OverflowError` on a negative value
  (line 65);
* the padding loop (lines 66 to 68) runs whenever the encoded value is shorter
  than the snapped width and raises `AttributeError`, because the immutable
  `bytes` object `bf` has no `append` method;
* `struct.unpack` (line 72) raises `struct.error` unless the buffer length
  equals the format size, and otherwise yields the float whose big-endian
  pattern is exactly `bf`; the constructor then re-packs that float at the
  same width, reproducing the same bits (the unpack/pack pair is an exact
  round trip for each of the three formats). -/
def fromString (value : String) (nbits : Nat) (base : Nat) (forcePositive : Bool)
    (byteOrder : String) : Except PyError FloatValue :=
  match
    (if forcePositive then
      if base = 2 then Except.error (PyError.typeError "str object does not support item assignment")
      else match value.data with
        | [] => Except.error (PyError.indexError "string index out of range")
        | c :: rest => if c = '-' then Except.ok (String.mk rest) else Except.ok value
    else Except.ok value) with
  | Except.error e => Except.error e
  | Except.ok value =>
    match pyInt value base with
    | none => Except.error (PyError.valueError "invalid literal for int")
    | some x =>
      let nbits := snapWidth nbits
      let bits_required := roundUp8 (bitLength x.natAbs)
      let xbytes := bits_required / 8
      let nbytes := nbits / 8
      if x < 0 then Except.error (PyError.overflowError "cannot convert negative int to unsigned")
      else
        let bf := natToBits x.natAbs xbytes
        if xbytes < nbytes then
          Except.error (PyError.attributeError "bytes object has no attribute append")
        else if xbytes = nbytes then Except.ok ⟨nbits, bf⟩
        else Except.error (PyError.structError "unpack requires a buffer of the format size")

/-- `as_int_tuple` (lines 206 to 207): the body is
`tuple(self.nbits, self.rawSign, ba2int(self.rawExp), ba2int(self.rawMantissa))`,
a call of the builtin `tuple` with four arguments; `tuple` accepts at most one
argument, so every call raises `TypeError` after evaluating the arguments and
no tuple is ever returned. -/
def as_int_tuple (x : FloatValue) : Except PyError (Nat × Nat × Nat × Nat) :=
  Except.error (PyError.typeError "tuple expected at most 1 argument, got 4")

/-- `new_from_int_tuple` (lines 213 to 236) as written in the source.  The
validations run in source order: the sign is rendered in binary and must be one
character long (`ValueError` otherwise, line 224); the `__desc` lookup of the
width raises `KeyError` for a width outside the table (line 226); an exponent
whose bit length exceeds the exponent field width raises `OverflowError`
naming the exponent (line 228), then likewise for the mantissa (line 233).
The final statement `return fromString(s+e+m, nbits, byteOrder=byteOrder)`
reads the bare name `fromString`, which is not defined in the module namespace
(it exists only as a class attribute), so every call that passes validation
raises `NameError` there. -/
def new_from_int_tuple (nbits sgn sexp smant : Nat) (byteOrder : String) :
    Except PyError FloatValue :=
  if binDigits sgn ≠ 1 then Except.error (PyError.valueError "Incorrect length for sign")
  else
    match desc_e_opt nbits with
    | none => Except.error (PyError.keyError "width not in desc")
    | some nbits_e =>
      if nbits_e < bitLength sexp then
        Except.error (PyError.overflowError "Value too large for exponent")
      else
        let nbits_m := nbits - 1 - nbits_e
        if nbits_m < bitLength smant then
          Except.error (PyError.overflowError "Value too large for mantissa")
        else Except.error (PyError.nameError "name fromString is not defined")

/-- The same reconstruction with the one name slip repaired, resolving the
bare `fromString` of line 236 to the class attribute `float_IEEE754.fromString`
and passing it the concatenated sign, zero-filled exponent and zero-filled
mantissa binary strings exactly as the source builds them. -/
def new_from_int_tuple_r (nbits sgn sexp smant : Nat) (byteOrder : String) :
    Except PyError FloatValue :=
  if binDigits sgn ≠ 1 then Except.error (PyError.valueError "Incorrect length for sign")
  else
    match desc_e_opt nbits with
    | none => Except.error (PyError.keyError "width not in desc")
    | some nbits_e =>
      if nbits_e < bitLength sexp then
        Except.error (PyError.overflowError "Value too large for exponent")
      else
        let nbits_m := nbits - 1 - nbits_e
        if nbits_m < bitLength smant then
          Except.error (PyError.overflowError "Value too large for mantissa")
        else
          fromString (pyBin sgn ++ zfill (pyBin sexp) nbits_e ++ zfill (pyBin smant) nbits_m)
            nbits 2 false byteOrder

/-- The struct prefix entry `p` of the class table `__bytesOrders`; `none`
models the `KeyError` of an unknown byte order name. -/
def bytesOrders_p (byteOrder : String) : Option String :=
  if byteOrder == "native-align" then some "@"
  else if byteOrder == "native" then some "="
  else if byteOrder == "little-endian" then some "<"
  else if byteOrder == "big-endian" then some ">"
  else if byteOrder == "network" then some "!"
  else none

/-- Whether a struct prefix makes `unpack` read the buffer in little-endian
byte order on a host whose `sys.byteorder` is `host`: the explicit little
prefix does, the two big prefixes do not, and the two native prefixes follow
the host. -/
def structLittle (p : String) (host : String) : Bool :=
  if p == "<" then true
  else if p == ">" || p == "!" then false
  else host == "little"

/-- Reversal of the byte order of a big-endian bit pattern: bit `i` of the
output is bit `8*(nb - 1 - i/8) + i%8` of the input, where `nb` is the byte
count. -/
def byteReverse (bits : List Bool) : List Bool :=
  let nb := bits.length / 8
  (List.range (8 * nb)).map (fun i => bits.getD (8 * (nb - 1 - i / 8) + i % 8) false)

/-- `fromBytes` (lines 75 to 82), parametrized by the host byte order
`sys.byteorder`.  In source order: the `__bytesOrders` lookup of the byte
order name (line 80), the `__desc` lookup of the width (line 81),
`struct.unpack`, which demands a buffer of exactly the format size and
otherwise yields the float whose big-endian pattern is the buffer, read
little-endian (so byte-reversed) when the struct prefix says so.  The
constructor then re-packs that float big-endian at the same width, an exact
round trip, so the resulting instance holds the (possibly byte-reversed)
input pattern. -/
def fromBytes (bytes : List Bool) (nbits : Nat) (byteOrder host : String) :
    Except PyError FloatValue :=
  match bytesOrders_p byteOrder with
  | none => Except.error (PyError.keyError "byte order not in bytesOrders")
  | some p =>
    match desc_e_opt nbits with
    | none => Except.error (PyError.keyError "width not in desc")
    | some _ =>
      if bytes.length = nbits then
        Except.ok ⟨nbits, if structLittle p host then byteReverse bytes else bytes⟩
      else Except.error (PyError.structError "unpack requires a buffer of the format size")

/-- `fromBitarray` (lines 84 to 87): bytes of the bit sequence, its length as
the width, and the given byte order. -/
def fromBitarray (bits : List Bool) (byteOrder host : String) : Except PyError FloatValue :=
  fromBytes bits bits.length byteOrder host

/-- `newFromBitSet` (lines 239 to 246), parametrized by the host byte order,
which supplies the default value of its `byteOrder` parameter: reading the bit
(IndexError when out of range), the no-op path returning `self` when the bit
already has the value, otherwise a deep copy with the one bit set, rebuilt
through `fromBitarray` with the given byte order. -/
def newFromBitSet (x : FloatValue) (index : Nat) (value : Bool) (byteOrder host : String) :
    Except PyError FloatValue :=
  if x.bits.length ≤ index then Except.error (PyError.indexError "bitarray index out of range")
  else if x.bits.getD index false == value then Except.ok x
  else fromBitarray (x.bits.set index value) byteOrder host

/-- `newFromBitReverse` (lines 248 to 253), parametrized by the host byte
order: reads the bit, inverts it, and calls `newFromBitSet` with that class
method's default `byteOrder` argument, which is `sys.byteorder + "-endian"`. -/
def newFromBitReverse (x : FloatValue) (bit : Nat) (host : String) : Except PyError FloatValue :=
  if x.bits.length ≤ bit then Except.error (PyError.indexError "bitarray index out of range")
  else
    let v := !(x.bits.getD bit false)
    newFromBitSet x bit v (host ++ "-endian") host

/-- The code after the first branch of `totalOrder` (lines 321 to 337):
the NaN handling, and the implicit `return None` reached when the function
falls off its end. -/
def totalOrderTail (x y : FloatValue) : Option Bool :=
  if x.NaN || y.NaN then
    if x.sign == SIGN_MINUS && !y.NaN then some true
    else if y.sign == SIGN_PLUS && !x.NaN then some true
    else if x.sign == SIGN_MINUS && y.sign == SIGN_PLUS then some true
    else if x.sign == SIGN_PLUS && y.sign == SIGN_MINUS then some false
    else some false
  else none

/-- `totalOrder` (lines 298 to 337).  The comparisons `x < y`, `x > y` and
`x == y` compare the inherited Python float values; they are only reached when
both operands are finite, where they agree with the exact rational values.
Every control path that reaches the end of the Python function body without a
`return` produces `none` (Python `None`); in particular both branches fall
through to the tail when an operand is infinite. -/
def totalOrder (x y : FloatValue) : Option Bool :=
  if x.finite && y.finite then
    if !x.zero && !y.zero then
      if x.exactValue < y.exactValue then some true
      else if y.exactValue < x.exactValue then some false
      else if x.exactValue = y.exactValue then
        if y.negativeZero && x.positiveZero then some true
        else if x.positiveZero && y.negativeZero then some false
        else if x.sign == SIGN_MINUS && y.sign == SIGN_MINUS then
          some (decide (y.exp ≤ x.exp))
        else some (decide (x.exp ≤ y.exp))
      else totalOrderTail x y
    else
      if x.positiveZero && y.negativeZero then some false else some true
  else totalOrderTail x y

/-- The result of flipping bit 0 of the 64-bit zero pattern twice through
`newFromBitReverse` on a little-endian host: the sign bit and bit 56 are both
set. -/
def flipTwice64 : FloatValue :=
  ⟨64, true :: (List.replicate 55 false ++ true :: List.replicate 7 false)⟩

/-- Whether a translated call raised `ValueError`. -/
def raisesValueError (r : Except PyError FloatValue) : Bool :=
  match r with
  | Except.error (PyError.valueError _) => true
  | _ => false

/-- Whether a translated call raised `OverflowError`. -/
def raisesOverflowError (r : Except PyError FloatValue) : Bool :=
  match r with
  | Except.error (PyError.overflowError _) => true
  | _ => false

/-- The zero bitstring exactly as quoted in the specification scenario (the
mantissa group there is 46 characters long). -/
def specZeroBitstring : String :=
  "0_00000000000_0000000000000000000000000000000000000000000000"

/-- Helper: the fuel-driven bit length is positive on positive fuel and input. -/
theorem one_le_bitLengthAux (f m : Nat) (hf : 1 ≤ f) (hm : 1 ≤ m) :
    1 ≤ bitLengthAux f m := by
  cases f with
  | zero => omega
  | succ f =>
    unfold bitLengthAux
    rw [if_neg (by omega)]
    omega

/-- Helper: a value of two or more has a binary bit length of at least two. -/
theorem two_le_bitLength (k : Nat) : 2 ≤ bitLength (k + 2) := by
  have h1 : 1 ≤ bitLengthAux (k + 1) ((k + 2) / 2) :=
    one_le_bitLengthAux _ _ (by omega) (by omega)
  have h2 : bitLength (k + 2) = bitLengthAux (k + 1) ((k + 2) / 2) + 1 := by
    rw [show bitLength (k + 2)
        = if (k + 2) = 0 then 0 else bitLengthAux (k + 1) ((k + 2) / 2) + 1 from rfl]
    rw [if_neg (by omega)]
  omega

/-- Helper: the binary rendering of a nonnegative int has one digit exactly
for the values 0 and 1. -/
theorem binDigits_eq_one_iff (n : Nat) : binDigits n = 1 ↔ n ≤ 1 := by
  unfold binDigits
  match n with
  | 0 => simp
  | 1 => simp [bitLength, bitLengthAux]
  | Nat.succ (Nat.succ k) =>
    rw [if_neg (by omega)]
    have h := two_le_bitLength k
    have e : Nat.succ (Nat.succ k) = k + 2 := rfl
    rw [e]
    omega

/-- Helper: reduction of `new_from_int_tuple` once the width is in the table. -/
theorem new_from_int_tuple_of_desc (nbits sgn sexp smant : Nat) (bo : String) (e : Nat)
    (hdesc : desc_e_opt nbits = some e) :
    new_from_int_tuple nbits sgn sexp smant bo =
      if binDigits sgn ≠ 1 then Except.error (PyError.valueError "Incorrect length for sign")
      else if e < bitLength sexp then
        Except.error (PyError.overflowError "Value too large for exponent")
      else if nbits - 1 - e < bitLength smant then
        Except.error (PyError.overflowError "Value too large for mantissa")
      else Except.error (PyError.nameError "name fromString is not defined") := by
  unfold new_from_int_tuple
  rw [hdesc]

/-- C1: for every constructed FloatValue, exactly one of the five category
flags is true.  The code violates this: `normal` (line 134) is
`rawExp.any() or not rawMantissa.any()`, which also holds for every zero,
infinity and NaN pattern.  At +0 and at +Inf two of the five flags are set. -/
theorem C1_zero_and_inf_have_two_flags :
    posZero64.zero = true ∧ posZero64.normal = true ∧ categoryCount posZero64 = 2 ∧
    posInf64.infinity = true ∧ posInf64.normal = true ∧ categoryCount posInf64 = 2 := by
  decide

/-- C2: with exactly one infinite operand and no NaN, `totalOrder` is claimed
to return a boolean implementing sign-then-magnitude ordering.  The code has
no branch for infinite operands: the first branch requires both operands
finite, the second requires a NaN, and the function falls off its end, so
Python returns `None` (here `none`) on every such pair, for instance on
negative infinity versus positive zero and on positive zero versus positive
infinity, where the claim demands `true`. -/
theorem C2_totalOrder_infinite_returns_none :
    totalOrder negInf64 posZero64 = none ∧ totalOrder posZero64 posInf64 = none := by
  decide

/-- C3: the round trip `fromFieldTuple` then `toFieldTuple` is claimed to
succeed on every in-bounds tuple.  On the tuple (64, 0, 1, 0): the source
`new_from_int_tuple` raises `NameError` at its final line (the bare name
`fromString` is undefined at module scope); with that name slip repaired the
call still fails, because `fromString` pads short byte strings by calling
`append` on an immutable `bytes` object, raising `AttributeError`; and
`as_int_tuple` raises `TypeError` on every instance, since it calls the
builtin `tuple` with four arguments. -/
theorem C3_roundtrip_impossible :
    (∀ bo, new_from_int_tuple 64 0 1 0 bo =
      Except.error (PyError.nameError "name fromString is not defined")) ∧
    (∀ bo, new_from_int_tuple_r 64 0 1 0 bo =
      Except.error (PyError.attributeError "bytes object has no attribute append")) ∧
    (∀ x, as_int_tuple x =
      Except.error (PyError.typeError "tuple expected at most 1 argument, got 4")) :=
  ⟨fun _ => rfl, fun _ => rfl, fun _ => rfl⟩

/-- C4, counterexample: the claim says a requested width below 32 is snapped
to 16, but the constructor (line 99) keeps a width only when it is in the
table and replaces every other width by 64: requesting width 20 yields an
effective width of 64, not 16. -/
theorem C4_counterexample : init_nbits 20 = 64 ∧ init_nbits 20 ≠ 16 := by
  decide

/-- C4, amended: the constructor does not snap widths; its effective width is
always one of 16, 32 and 64, equals the requested width exactly when that
width is one of 16, 32 and 64, and is 64 otherwise (the snapping rule of the
claim lives only in `fromString`). -/
theorem C4_constructor_width_rule : ∀ n : Nat,
    (init_nbits n = 16 ∨ init_nbits n = 32 ∨ init_nbits n = 64) ∧
    (init_nbits n = n ↔ (n = 16 ∨ n = 32 ∨ n = 64)) ∧
    (init_nbits n = n ∨ init_nbits n = 64) := by
  intro n
  unfold init_nbits
  by_cases h : n = 16 ∨ n = 32 ∨ n = 64
  · rw [if_pos h]
    exact ⟨h, iff_of_true rfl h, Or.inl rfl⟩
  · rw [if_neg h]
    refine ⟨Or.inr (Or.inr rfl), ?_, Or.inr rfl⟩
    constructor
    · intro h64
      exact absurd (Or.inr (Or.inr h64.symm)) h
    · intro hn
      exact absurd hn h

/-- C5: `fromString` applied to the eleven-character digit string of the
scenario is claimed to succeed and yield a signaling NaN.  The parsed value
2046 encodes in two bytes while a 64-bit width needs eight, so the padding
loop runs and immediately raises `AttributeError`: the immutable `bytes`
object has no `append` method.  The call fails for every byte order
argument. -/
theorem C5_fromString_scenario_raises :
    ∀ bo, fromString "11111111110" 64 2 false bo =
      Except.error (PyError.attributeError "bytes object has no attribute append") :=
  fun _ => rfl

/-- C6: the claim constructs the two signed zeros through `fromFieldTuple`.
The tuple (64, 0, 0, 0) never yields a value: the source call raises
`NameError` (bare `fromString`), and with the name repaired it raises
`AttributeError` in the padding loop (the encoded value 0 is shorter than
eight bytes).  The tuple (64, 1, 0, 0) does yield negative zero under the
repaired name (its packed value fills all eight bytes).  On directly
constructed zeros the ordering half of the claim holds: `totalOrder` puts
negative zero before positive zero and not conversely. -/
theorem C6_signed_zero_scenario :
    (∀ bo, new_from_int_tuple 64 0 0 0 bo =
      Except.error (PyError.nameError "name fromString is not defined")) ∧
    (∀ bo, new_from_int_tuple_r 64 0 0 0 bo =
      Except.error (PyError.attributeError "bytes object has no attribute append")) ∧
    (∀ bo, new_from_int_tuple_r 64 1 0 0 bo = Except.ok negZero64) ∧
    negZero64.negativeZero = true ∧ posZero64.positiveZero = true ∧
    negZero64.zero = true ∧ posZero64.zero = true ∧
    totalOrder negZero64 posZero64 = some true ∧
    totalOrder posZero64 negZero64 = some false :=
  ⟨fun _ => rfl, fun _ => rfl, fun _ => rfl, rfl, rfl, rfl, rfl, by decide, by decide⟩

/-- C7: double bit flip is claimed to restore the original bit pattern.  On a
little-endian host the default `byteOrder` of the mutation methods is the
native order, and rebuilding through `fromBytes` then byte-reverses the
big-endian bit buffer: flipping bit 0 of +0 twice yields the pattern with the
sign bit and bit 56 set instead of the original all-zero pattern.  The no-op
half of the claim does hold: setting a bit to its current value returns the
same instance. -/
theorem C7_doubleflip_changes_pattern :
    newFromBitSet posZero64 0 false "little-endian" "little" = Except.ok posZero64 ∧
    ((newFromBitReverse posZero64 0 "little").bind
      (fun y => newFromBitReverse y 0 "little")) = Except.ok flipTwice64 ∧
    flipTwice64.bits ≠ posZero64.bits :=
  ⟨rfl, rfl, by decide⟩

/-- C8: `new_from_int_tuple` raises `ValueError` exactly when the sign value
is not one bit wide (that is, exceeds 1); when the sign is valid it raises
`OverflowError` exactly when the exponent bit length exceeds the width's
exponent field or the mantissa bit length exceeds the width's mantissa field,
naming the overflowing field (the exponent check runs first); all checks run
synchronously before anything else in the call. -/
theorem C8_field_validation (nbits sgn sexp smant : Nat) (bo : String)
    (hw : nbits = 16 ∨ nbits = 32 ∨ nbits = 64) :
    (raisesValueError (new_from_int_tuple nbits sgn sexp smant bo) = true ↔ 2 ≤ sgn) ∧
    (raisesOverflowError (new_from_int_tuple nbits sgn sexp smant bo) = true ↔
      (sgn ≤ 1 ∧ (desc_e nbits < bitLength sexp ∨
        nbits - 1 - desc_e nbits < bitLength smant))) ∧
    (sgn ≤ 1 → desc_e nbits < bitLength sexp →
      new_from_int_tuple nbits sgn sexp smant bo =
        Except.error (PyError.overflowError "Value too large for exponent")) ∧
    (sgn ≤ 1 → bitLength sexp ≤ desc_e nbits → nbits - 1 - desc_e nbits < bitLength smant →
      new_from_int_tuple nbits sgn sexp smant bo =
        Except.error (PyError.overflowError "Value too large for mantissa")) := by
  have hdesc : desc_e_opt nbits = some (desc_e nbits) := by
    rcases hw with h | h | h <;> subst h <;> rfl
  rw [new_from_int_tuple_of_desc nbits sgn sexp smant bo (desc_e nbits) hdesc]
  by_cases h1 : binDigits sgn = 1
  · have hsgn : sgn ≤ 1 := (binDigits_eq_one_iff sgn).mp h1
    rw [if_neg (fun hne => hne h1)]
    by_cases h2 : desc_e nbits < bitLength sexp
    · rw [if_pos h2]
      refine ⟨by simp [raisesValueError]; omega, ?_, fun _ _ => rfl, ?_⟩
      · simp only [raisesOverflowError]
        constructor
        · intro _; exact ⟨hsgn, Or.inl h2⟩
        · intro _; trivial
      · intro _ hle _; omega
    · rw [if_neg h2]
      by_cases h3 : nbits - 1 - desc_e nbits < bitLength smant
      · rw [if_pos h3]
        refine ⟨by simp [raisesValueError]; omega, ?_, fun _ h => absurd h h2, fun _ _ _ => rfl⟩
        simp only [raisesOverflowError]
        constructor
        · intro _; exact ⟨hsgn, Or.inr h3⟩
        · intro _; trivial
      · rw [if_neg h3]
        refine ⟨by simp [raisesValueError]; omega, ?_, fun _ h => absurd h h2,
          fun _ _ h => absurd h h3⟩
        simp only [raisesOverflowError]
        constructor
        · intro h; exact absurd h (by simp)
        · intro ⟨_, h⟩; omega
  · have hsgn : 2 ≤ sgn := by
      have h2 := (binDigits_eq_one_iff sgn).not.mp h1
      omega
    rw [if_pos h1]
    refine ⟨by simp [raisesValueError]; omega, ?_, fun h _ => by omega, fun h _ _ => by omega⟩
    simp only [raisesOverflowError]
    constructor
    · intro h; exact absurd h (by simp)
    · intro ⟨h, _⟩; omega

/-- Witness for C8 at the concrete tuple (16, 0, 0, 1024): the mantissa value
1024 needs eleven bits while a 16-bit width has a ten-bit mantissa field, so
the call raises `OverflowError` naming the mantissa. -/
theorem C8_field_validation_witness :
    (16 = 16 ∨ 16 = 32 ∨ 16 = 64) ∧
    ((raisesValueError (new_from_int_tuple 16 0 0 1024 "big-endian") = true ↔ 2 ≤ 0) ∧
    (raisesOverflowError (new_from_int_tuple 16 0 0 1024 "big-endian") = true ↔
      (0 ≤ 1 ∧ (desc_e 16 < bitLength 0 ∨ 16 - 1 - desc_e 16 < bitLength 1024))) ∧
    (0 ≤ 1 → desc_e 16 < bitLength 0 →
      new_from_int_tuple 16 0 0 1024 "big-endian" =
        Except.error (PyError.overflowError "Value too large for exponent")) ∧
    (0 ≤ 1 → bitLength 0 ≤ desc_e 16 → 16 - 1 - desc_e 16 < bitLength 1024 →
      new_from_int_tuple 16 0 0 1024 "big-endian" =
        Except.error (PyError.overflowError "Value too large for mantissa"))) :=
  ⟨Or.inl rfl, C8_field_validation 16 0 0 1024 "big-endian" (Or.inl rfl)⟩

/-- C9, counterexample: the bitstring of the 64-bit zero instance is not the
string quoted in the specification, whose mantissa group has only 46
characters instead of the 52 mantissa bits of a 64-bit value. -/
theorem C9_counterexample : FloatValue.bitstring posZero64 ≠ specZeroBitstring := by
  decide

/-- C9, amended: the bitstring of `float_IEEE754(0.0, 64)` is the sign bit,
the eleven-character zero exponent group and the 52-character zero mantissa
group joined by underscores. -/
theorem C9_bitstring_zero64 :
    FloatValue.bitstring posZero64 =
      "0_00000000000_0000000000000000000000000000000000000000000000000000" := rfl

/-- C10: the result of `fromString` does not depend on its `byteOrder`
parameter: the parameter is overwritten with the big-endian name on entry
(line 43), so any two byte order arguments give identical results on all
inputs, including failing ones. -/
theorem C10_fromString_byteOrder_independent :
    ∀ (value : String) (nbits base : Nat) (fp : Bool) (b1 b2 : String),
      fromString value nbits base fp b1 = fromString value nbits base fp b2 :=
  fun _ _ _ _ _ _ => rfl

end Float754
